import Mathlib

/-
Verification development for the Stockanalysis dashboard (src/app.py).

The Python source is a single Streamlit page.  The logic the claims are
about is embedded shallowly below:

* dictionary values coming from the yfinance info record are modelled by
  `Value` (a Python value may be `None`, the float `nan`, a number, or a
  string); a field of the record is an `Option Value`, where `none` means
  the key is absent from the dictionary and `some v` means the key is
  present with value `v`;
* Python float arithmetic on the statistics path is modelled by `PyFloat`
  (finite rational, `nan`, `+inf`, `-inf`); prices and volumes themselves
  are exact rationals, which is faithful for every claim at issue (no
  claim depends on binary rounding error);
* Python code that can raise is modelled in `Except String`, the error
  string naming the exception class the interpreter would raise;
* the two-decimal `.2f` format and the `DataFrame.round` rounding are
  modelled with round-half-to-even on exact rationals (CPython rounds the
  shortest decimal of the binary float half-to-even; no claim exercises a
  tie).  A Python `-0.00` rendering collapses to `0.00` here; no claim
  depends on negative zero.
-/

set_option autoImplicit false

namespace StockApp

/-- A Python value as it can occur in the yfinance info dictionary:
`None`, the float `nan`, a (finite) number, or a string. -/
inductive Value where
  | vnull
  | vnan
  | vnum (q : ℚ)
  | vstr (s : String)
  deriving DecidableEq

/-- Python truthiness: `None` and numeric `0` and the empty string are
falsy; `nan` is truthy. -/
def truthy : Value → Bool
  | .vnull => false
  | .vnan => true
  | .vnum q => decide (q ≠ 0)
  | .vstr s => decide (s ≠ "")

/-- `info.get(k)`: absent key yields `None`. -/
def pyGet (o : Option Value) : Value :=
  o.getD Value.vnull

/-- `info.get(k, d)`: the default is used only when the key is absent; a
present key wins even when its value is `None` or empty. -/
def pyGetD (o : Option Value) (d : Value) : Value :=
  match o with
  | none => d
  | some v => v

/-- Two-digit zero padding for the fractional part of a 2-decimal format. -/
def pad2 (n : ℕ) : String :=
  if n < 10 then "0" ++ toString n else toString n

/-- Round a rational to the nearest integer, ties to even (the rounding
CPython applies when formatting). -/
def roundHalfEven (q : ℚ) : ℤ :=
  let f : ℤ := ⌊q⌋
  let r : ℚ := q - f
  if r < 1 / 2 then f
  else if 1 / 2 < r then f + 1
  else if f % 2 = 0 then f else f + 1

/-- The Python format `f"{q:.2f}"` on a finite number: two decimal places. -/
def fmt2 (q : ℚ) : String :=
  let m : ℤ := roundHalfEven (q * 100)
  let sign : String := if m < 0 then "-" else ""
  let a : ℕ := m.natAbs
  sign ++ toString (a / 100) ++ "." ++ pad2 (a % 100)

/-- Insert a comma after every three characters of an already reversed
digit list (helper for the thousands-separator format). -/
def commaRev : List Char → List Char
  | a :: b :: c :: d :: rest => a :: b :: c :: ',' :: commaRev (d :: rest)
  | l => l

/-- Thousands separators for a natural number, as in `f"{n:,}"`. -/
def commaOfNat (n : ℕ) : String :=
  String.mk ((commaRev (toString n).data.reverse).reverse)

/-- Thousands separators for an integer. -/
def commaOfInt (m : ℤ) : String :=
  (if m < 0 then "-" else "") ++ commaOfNat m.natAbs

/-- Decimal digits of a fractional part, at most `fuel` digits.  Binary
floats have finite decimal expansions well under the fuel used below; the
truncation is unreachable from real float data and no claim depends on
this text. -/
def fracDigits : ℕ → ℚ → String
  | 0, _ => ""
  | fuel + 1, r =>
    if r = 0 then "" else
      let r10 := r * 10
      let d : ℤ := ⌊r10⌋
      toString d.natAbs ++ fracDigits fuel (r10 - d)

/-- The Python format `f"{q:,}"` on a finite number. -/
def commaOfRat (q : ℚ) : String :=
  if q.den = 1 then commaOfInt q.num
  else
    (if q < 0 then "-" else "") ++ commaOfNat (⌊|q|⌋).natAbs ++ "." ++
      fracDigits 20 (|q| - ⌊|q|⌋)

/-- Applying the format spec `.2f` to a Python value: numbers format to
two decimals, `nan` renders as `"nan"`, while `None` and strings raise
(`TypeError` / `ValueError: Unknown format code f`). -/
def dotTwo : Value → Except String String
  | .vnum q => .ok (fmt2 q)
  | .vnan => .ok "nan"
  | .vnull => .error "TypeError"
  | .vstr _ => .error "ValueError"

/-- Applying the format spec `,` to a Python value: numbers get thousands
separators, `nan` renders as `"nan"`, `None` and strings raise. -/
def commaFmt : Value → Except String String
  | .vnum q => .ok (commaOfRat q)
  | .vnan => .ok "nan"
  | .vnull => .error "TypeError"
  | .vstr _ => .error "ValueError"

/-- Python `v * 100` as it occurs in the dividend-yield row: numbers
multiply, `nan` propagates, a string is repeated 100 times (Python string
repetition), `None` raises a `TypeError`. -/
def pyMul100 : Value → Except String Value
  | .vnum q => .ok (.vnum (q * 100))
  | .vnan => .ok .vnan
  | .vstr s => .ok (.vstr (String.join (List.replicate 100 s)))
  | .vnull => .error "TypeError"

/-- From app.py lines 74-87, `format_large_number`: `pd.isna` catches
`None` and `nan` (yielding `"N/A"`); on a number the magnitude thresholds
are checked on the absolute value, largest first; on a string `abs`
raises a `TypeError`. -/
def format_large_number (num : Value) : Except String String :=
  match num with
  | .vnull => .ok "N/A"
  | .vnan => .ok "N/A"
  | .vstr _ => .error "TypeError"
  | .vnum n =>
    .ok (if (10 : ℚ) ^ 12 ≤ |n| then "$" ++ fmt2 (n / 10 ^ 12) ++ "T"
      else if (10 : ℚ) ^ 9 ≤ |n| then "$" ++ fmt2 (n / 10 ^ 9) ++ "B"
      else if (10 : ℚ) ^ 6 ≤ |n| then "$" ++ fmt2 (n / 10 ^ 6) ++ "M"
      else if (10 : ℚ) ^ 3 ≤ |n| then "$" ++ fmt2 (n / 10 ^ 3) ++ "K"
      else "$" ++ fmt2 n)

/-- The yfinance info record, restricted to the fields the program reads.
`none` = key absent; `some v` = key present with Python value `v`. -/
structure InfoRecord where
  currentPrice : Option Value := none
  previousClose : Option Value := none
  dayLow : Option Value := none
  dayHigh : Option Value := none
  fiftyTwoWeekLow : Option Value := none
  fiftyTwoWeekHigh : Option Value := none
  volume : Option Value := none
  averageVolume : Option Value := none
  marketCap : Option Value := none
  trailingPE : Option Value := none
  trailingEps : Option Value := none
  dividendYield : Option Value := none
  beta : Option Value := none
  shortName : Option Value := none
  longName : Option Value := none

/-- A row of the form `f"${v:.2f}" if v else "N/A"` (app.py lines 106,
107, 114).  The source formats `info.get(k, 'N/A')`, but that default is
only reachable when the key is absent, in which case the truthiness guard
already chose `"N/A"`; so in the reachable branch the formatted value is
`info.get(k)`. -/
def dollar2Row (o : Option Value) : Except String String :=
  if truthy (pyGet o) then do
    let s ← dotTwo (pyGet o)
    pure ("$" ++ s)
  else pure "N/A"

/-- A row of the form `f"{v:.2f}" if v else "N/A"` (app.py lines 113,
116: P/E ratio and beta). -/
def plain2Row (o : Option Value) : Except String String :=
  if truthy (pyGet o) then dotTwo (pyGet o)
  else pure "N/A"

/-- A range row `f"${lo:.2f} - ${hi:.2f}" if lo and hi else "N/A"`
(app.py lines 108-109). -/
def rangeRow (lo hi : Option Value) : Except String String :=
  if truthy (pyGet lo) && truthy (pyGet hi) then do
    let a ← dotTwo (pyGet lo)
    let b ← dotTwo (pyGet hi)
    pure ("$" ++ a ++ " - $" ++ b)
  else pure "N/A"

/-- A volume row `f"{v:,}" if v else "N/A"` (app.py lines 110-111). -/
def commaRow (o : Option Value) : Except String String :=
  if truthy (pyGet o) then commaFmt (pyGet o)
  else pure "N/A"

/-- The dividend-yield row
`f"{info.get('dividendYield', 0)*100:.2f}%" if info.get('dividendYield') else "N/A"`
(app.py line 115). -/
def dividendRow (o : Option Value) : Except String String :=
  if truthy (pyGet o) then do
    let w ← pyMul100 (pyGetD o (Value.vnum 0))
    let s ← dotTwo w
    pure (s ++ "%")
  else pure "N/A"

/-- From app.py lines 89-119, `create_summary_table`: the eleven labelled
metric strings, in source order.  The `Value` column entries are computed
left to right and the first exception propagates. -/
def create_summary_table (info : InfoRecord) :
    Except String (List (String × String)) := do
  let v1 ← dollar2Row info.currentPrice
  let v2 ← dollar2Row info.previousClose
  let v3 ← rangeRow info.dayLow info.dayHigh
  let v4 ← rangeRow info.fiftyTwoWeekLow info.fiftyTwoWeekHigh
  let v5 ← commaRow info.volume
  let v6 ← commaRow info.averageVolume
  let v7 ← format_large_number (pyGet info.marketCap)
  let v8 ← plain2Row info.trailingPE
  let v9 ← dollar2Row info.trailingEps
  let v10 ← dividendRow info.dividendYield
  let v11 ← plain2Row info.beta
  pure [("Current Price", v1), ("Previous Close", v2), ("Day's Range", v3),
        ("52 Week Range", v4), ("Volume", v5), ("Average Volume", v6),
        ("Market Cap", v7), ("P/E Ratio", v8), ("EPS", v9),
        ("Dividend Yield", v10), ("Beta", v11)]

/-- The fixed label column of the summary table, in display order. -/
def summaryLabels : List String :=
  ["Current Price", "Previous Close", "Day's Range", "52 Week Range",
   "Volume", "Average Volume", "Market Cap", "P/E Ratio", "EPS",
   "Dividend Yield", "Beta"]

/-- Whether an optional field holds a present string value. -/
def isStrVal : Option Value → Bool
  | some (.vstr _) => true
  | _ => false

/-- The numeric fields of the record hold numbers, `nan`, `None`, or are
absent — no strings.  The two name fields are unconstrained. -/
def WellTyped (info : InfoRecord) : Prop :=
  isStrVal info.currentPrice = false ∧
  isStrVal info.previousClose = false ∧
  isStrVal info.dayLow = false ∧
  isStrVal info.dayHigh = false ∧
  isStrVal info.fiftyTwoWeekLow = false ∧
  isStrVal info.fiftyTwoWeekHigh = false ∧
  isStrVal info.volume = false ∧
  isStrVal info.averageVolume = false ∧
  isStrVal info.marketCap = false ∧
  isStrVal info.trailingPE = false ∧
  isStrVal info.trailingEps = false ∧
  isStrVal info.dividendYield = false ∧
  isStrVal info.beta = false

/-- Whether an `Except` computation finished without raising. -/
def isOkE {ε α : Type} : Except ε α → Bool
  | .ok _ => true
  | .error _ => false

/-- What the summary extractor produces on a well-typed record: exactly
eleven rows, labels in the fixed order, and an `"N/A"` value for every
guarded metric whose source value is falsy — for Market Cap the `"N/A"`
cases are exactly a missing, `None`, or `nan` value (a present zero is
not one of them). -/
def SummarySpec (info : InfoRecord) : Prop :=
  ∃ rows : List (String × String),
    create_summary_table info = Except.ok rows ∧
    rows.map Prod.fst = summaryLabels ∧
    rows.length = 11 ∧
    (truthy (pyGet info.currentPrice) = false →
      (rows.map Prod.snd)[0]? = some "N/A") ∧
    (truthy (pyGet info.previousClose) = false →
      (rows.map Prod.snd)[1]? = some "N/A") ∧
    ((truthy (pyGet info.dayLow) && truthy (pyGet info.dayHigh)) = false →
      (rows.map Prod.snd)[2]? = some "N/A") ∧
    ((truthy (pyGet info.fiftyTwoWeekLow) &&
        truthy (pyGet info.fiftyTwoWeekHigh)) = false →
      (rows.map Prod.snd)[3]? = some "N/A") ∧
    (truthy (pyGet info.volume) = false →
      (rows.map Prod.snd)[4]? = some "N/A") ∧
    (truthy (pyGet info.averageVolume) = false →
      (rows.map Prod.snd)[5]? = some "N/A") ∧
    ((pyGet info.marketCap = Value.vnull ∨ pyGet info.marketCap = Value.vnan) →
      (rows.map Prod.snd)[6]? = some "N/A") ∧
    (truthy (pyGet info.trailingPE) = false →
      (rows.map Prod.snd)[7]? = some "N/A") ∧
    (truthy (pyGet info.trailingEps) = false →
      (rows.map Prod.snd)[8]? = some "N/A") ∧
    (truthy (pyGet info.dividendYield) = false →
      (rows.map Prod.snd)[9]? = some "N/A") ∧
    (truthy (pyGet info.beta) = false →
      (rows.map Prod.snd)[10]? = some "N/A")

/-- From app.py line 208:
`company_name = info.get('shortName', info.get('longName', stock_symbol))`. -/
def company_name (info : InfoRecord) (stock_symbol : String) : Value :=
  pyGetD info.shortName (pyGetD info.longName (.vstr stock_symbol))

/-- A Python float on the statistics path: finite, `nan`, or infinite. -/
inductive PyFloat where
  | fin (q : ℚ)
  | nan
  | pinf
  | ninf
  deriving DecidableEq

/-- Float division `a / b` of exact values: division by zero yields a
signed infinity (or `nan` for `0/0`), as numpy float division does. -/
def pyDivQ (a b : ℚ) : PyFloat :=
  if b = 0 then
    (if 0 < a then .pinf else if a < 0 then .ninf else .nan)
  else .fin (a / b)

/-- Subtract a rational constant from a float. -/
def pySubC : PyFloat → ℚ → PyFloat
  | .fin q, c => .fin (q - c)
  | .nan, _ => .nan
  | .pinf, _ => .pinf
  | .ninf, _ => .ninf

/-- Multiply a float by a rational constant. -/
def pyMulC : PyFloat → ℚ → PyFloat
  | .fin q, c => .fin (q * c)
  | .nan, _ => .nan
  | .pinf, c => if 0 < c then .pinf else if c < 0 then .ninf else .nan
  | .ninf, c => if 0 < c then .ninf else if c < 0 then .pinf else .nan

/-- Whether a float is the `nan` value. -/
def isNan : PyFloat → Bool
  | .nan => true
  | _ => false

/-- Whether a float is finite. -/
def isFin : PyFloat → Bool
  | .fin _ => true
  | _ => false

/-- Whether a float is positive infinity. -/
def isPinf : PyFloat → Bool
  | .pinf => true
  | _ => false

/-- Whether a float is negative infinity. -/
def isNinf : PyFloat → Bool
  | .ninf => true
  | _ => false

/-- The finite value of a float, when there is one. -/
def toQ : PyFloat → Option ℚ
  | .fin q => some q
  | _ => none

/-- From app.py lines 260 and 265, `hist_data['Close'].pct_change()`: a
leading `nan` for the first row, then `(close[i] - close[i-1]) / close[i-1]`
for each adjacent pair, in float arithmetic. -/
def pct_change (xs : List ℚ) : List PyFloat :=
  match xs with
  | [] => []
  | x :: rest =>
    PyFloat.nan ::
      List.zipWith (fun prev cur => pyDivQ (cur - prev) prev) (x :: rest) rest

/-- The daily-returns sequence as the spec states it (§4.2): for each
adjacent pair of Close values, `close[i] / close[i-1] - 1`; a series of
length 1 yields the empty sequence. -/
def dailyReturns (xs : List ℚ) : List ℚ :=
  List.zipWith (fun prev cur => cur / prev - 1) xs xs.tail

/-- `Series.mean()` with pandas defaults: `nan` entries are skipped; the
mean of no observations is `nan`; infinities propagate. -/
def mean_skipna (xs : List PyFloat) : PyFloat :=
  let v := xs.filter (fun x => !isNan x)
  if v.isEmpty then .nan
  else if v.any isPinf && v.any isNinf then .nan
  else if v.any isPinf then .pinf
  else if v.any isNinf then .ninf
  else .fin ((v.filterMap toQ).sum / v.length)

/-- The sample variance with the `n - 1` denominator, on exact values. -/
def sampleVar (qs : List ℚ) : ℚ :=
  let n : ℚ := qs.length
  let m := qs.sum / n
  ((qs.map (fun q => (q - m) ^ 2)).sum) / (n - 1)

/-- The square of `Series.std()` with pandas defaults (`skipna=True`,
`ddof=1`): `nan` with fewer than two non-`nan` observations; `nan` when
any observation is infinite (the deviation `inf - inf` is `nan`);
otherwise the sample variance. -/
def stdSq_skipna (xs : List PyFloat) : PyFloat :=
  let v := xs.filter (fun x => !isNan x)
  if v.length < 2 then .nan
  else if v.all isFin then .fin (sampleVar (v.filterMap toQ))
  else .nan

/-- From app.py line 260:
`volatility = hist_data['Close'].pct_change().std() * np.sqrt(252) * 100`.
The square root of 252 is irrational, so the embedding carries the
square of the volatility: `std² * 252 * 100²`.  The squared value is
`nan` exactly when the volatility is, and on nonnegative finite values
the squaring is a monotone bijection, so every claim about the displayed
value is decided by this definition together with `IsSqrtOf`. -/
def volatility_sq (close : List ℚ) : PyFloat :=
  pyMulC (stdSq_skipna (pct_change close)) (252 * 100 ^ 2)

/-- `y` is the numpy square root of `x`: `sqrt nan = nan`,
`sqrt inf = inf`, `sqrt (-inf) = nan`, `sqrt` of a negative finite value
is `nan`, and on a nonnegative finite value it is the nonnegative root. -/
def IsSqrtOf (y x : PyFloat) : Prop :=
  match x, y with
  | .nan, .nan => True
  | .pinf, .pinf => True
  | .ninf, .nan => True
  | .fin q, .nan => q < 0
  | .fin q, .fin r => 0 ≤ r ∧ r ^ 2 = q
  | _, _ => False

/-- From app.py lines 263-264:
`total_return = ((close.iloc[-1] / close.iloc[0]) - 1) * 100` in float
arithmetic.  `iloc` on an empty frame raises an `IndexError`, modelled by
`none`; upstream code guarantees the series is non-empty. -/
def total_return (close : List ℚ) : Option PyFloat :=
  match close.getLast?, close.head? with
  | some l, some f => some (pyMulC (pySubC (pyDivQ l f) 1) 100)
  | _, _ => none

/-- From app.py lines 265-266:
`avg_daily_return = hist_data['Close'].pct_change().mean() * 100`. -/
def avg_daily_return (close : List ℚ) : PyFloat :=
  pyMulC (mean_skipna (pct_change close)) 100

/-- The format `f"{x:.2f}"` on a float. -/
def pyFmt2 : PyFloat → String
  | .fin q => fmt2 q
  | .nan => "nan"
  | .pinf => "inf"
  | .ninf => "-inf"

/-- The format `f"{x:+.2f}"` on a float: an explicit sign is always
emitted. -/
def pyFmt2Signed : PyFloat → String
  | .fin q => if 0 ≤ q then "+" ++ fmt2 q else fmt2 q
  | .nan => "+nan"
  | .pinf => "+inf"
  | .ninf => "-inf"

/-- One row of the historical OHLCV table, keyed by its trading date. -/
structure TradingRow where
  date : String
  Open : ℚ
  High : ℚ
  Low : ℚ
  Close : ℚ
  Volume : ℚ

/-- A pandas dataframe as the caller sees it: its rows and the mutable
name of its date index. -/
structure DataFrame where
  rows : List TradingRow
  indexName : Option String := none

/-- Round a rational to two decimal places (`DataFrame.round(2)` on one
entry). -/
def round2 (q : ℚ) : ℚ :=
  (roundHalfEven (q * 100) : ℚ) / 100

/-- `DataFrame.round(2)` on one row: every numeric column is rounded; the
date index is untouched.  Integer volumes are fixed points of the
rounding. -/
def roundRow (r : TradingRow) : TradingRow :=
  { r with Open := round2 r.Open, High := round2 r.High, Low := round2 r.Low,
           Close := round2 r.Close, Volume := round2 r.Volume }

/-- The structured content of the CSV export document.  The wall-clock
`Analysis Date` header line is omitted: it is nondeterministic and no
claim mentions it. -/
structure CsvDoc where
  symbol : String
  period : String
  summary : List (String × String)
  histIndexName : Option String
  hist : List TradingRow

/-- From app.py lines 180-194, `prepare_csv_data`.  The summary table is
built first and its exceptions propagate.  `hist_df = hist_data.copy()`
duplicates the frame, so the index rename and the rounding below apply to
the copy; the second component of the result is the caller's frame after
the call returns. -/
def prepare_csv_data (info : InfoRecord) (hist_data : DataFrame)
    (symbol selected_period : String) : Except String CsvDoc × DataFrame :=
  match create_summary_table info with
  | .error e => (.error e, hist_data)
  | .ok summary_df =>
    let hist_df := hist_data
    let hist_df := { hist_df with indexName := some "Date" }
    let hist_df := { hist_df with rows := hist_df.rows.map roundRow }
    (.ok { symbol := symbol, period := selected_period, summary := summary_df,
           histIndexName := hist_df.indexName, hist := hist_df.rows },
     hist_data)

/-- One visible rendering action of the chart section of the page. -/
inductive RenderStep where
  | pricePlot
  | volumePlot
  | histTable (rows : List TradingRow)
  | download (doc : Except String CsvDoc)

/-- From app.py lines 232-251, the chart-type branch of this source copy.
In the `"Line Chart"` branch only the assignment
`price_fig = create_line_chart(...)` runs — nothing is rendered; the
`st.plotly_chart` calls, the last-10-rows table and the CSV download
button are all nested inside the candlestick `else` block. -/
def chart_section (chart_type : String) (info : InfoRecord)
    (hist_data : DataFrame) (symbol selected_period : String) :
    List RenderStep :=
  if chart_type = "Line Chart" then []
  else
    [RenderStep.pricePlot, RenderStep.volumePlot,
     RenderStep.histTable
       ((hist_data.rows.drop (hist_data.rows.length - 10)).map roundRow),
     RenderStep.download
       (prepare_csv_data info hist_data symbol selected_period).1]

/-- The row that every column of a witness series repeats. -/
def mkRow (d : String) (p : ℚ) : TradingRow :=
  ⟨d, p, p, p, p, p⟩

/-- Rounding an integer changes nothing. -/
theorem roundHalfEven_intCast (m : ℤ) : roundHalfEven (m : ℚ) = m := by
  unfold roundHalfEven
  norm_num

/-- Evaluate the two-decimal format once the scaled value is known to be
an integer. -/
theorem fmt2_eval (q : ℚ) (m : ℤ) (h : q * 100 = m) :
    fmt2 q = (if m < 0 then "-" else "") ++ toString (m.natAbs / 100) ++
      "." ++ pad2 (m.natAbs % 100) := by
  unfold fmt2
  rw [h, roundHalfEven_intCast]

/-- Bind on a successful `Except` computation runs the continuation. -/
theorem okBind {ε α β : Type} (a : α) (f : α → Except ε β) :
    (Except.ok a >>= f : Except ε β) = f a := rfl

/-- Bind on a failed `Except` computation propagates the failure. -/
theorem errBind {ε α β : Type} (e : ε) (f : α → Except ε β) :
    (Except.error e >>= f : Except ε β) = Except.error e := rfl

/-- `pure` on `Except` is `ok`. -/
theorem pureOk {ε α : Type} (a : α) : (pure a : Except ε α) = Except.ok a := rfl

/-- A dollar-formatted metric row never raises on a string-free value and
is `"N/A"` exactly when its guard is falsy. -/
theorem dollar2Row_spec (o : Option Value) (h : isStrVal o = false) :
    ∃ s, dollar2Row o = Except.ok s ∧ (truthy (pyGet o) = false → s = "N/A") := by
  match o, h with
  | none, _ => exact ⟨"N/A", rfl, fun _ => rfl⟩
  | some .vnull, _ => exact ⟨"N/A", rfl, fun _ => rfl⟩
  | some .vnan, _ => exact ⟨"$" ++ "nan", rfl, fun hc => by simp [pyGet, truthy] at hc⟩
  | some (.vnum q), _ =>
    by_cases hq : q = 0
    · subst hq
      exact ⟨"N/A", rfl, fun _ => rfl⟩
    · refine ⟨"$" ++ fmt2 q, ?_, fun hc => ?_⟩
      · simp [dollar2Row, pyGet, truthy, hq, dotTwo, okBind, pureOk]
      · simp [pyGet, truthy, hq] at hc
  | some (.vstr s), h => simp [isStrVal] at h

/-- A plain two-decimal metric row never raises on a string-free value
and is `"N/A"` exactly when its guard is falsy. -/
theorem plain2Row_spec (o : Option Value) (h : isStrVal o = false) :
    ∃ s, plain2Row o = Except.ok s ∧ (truthy (pyGet o) = false → s = "N/A") := by
  match o, h with
  | none, _ => exact ⟨"N/A", rfl, fun _ => rfl⟩
  | some .vnull, _ => exact ⟨"N/A", rfl, fun _ => rfl⟩
  | some .vnan, _ => exact ⟨"nan", rfl, fun hc => by simp [pyGet, truthy] at hc⟩
  | some (.vnum q), _ =>
    by_cases hq : q = 0
    · subst hq
      exact ⟨"N/A", rfl, fun _ => rfl⟩
    · refine ⟨fmt2 q, ?_, fun hc => ?_⟩
      · simp [plain2Row, pyGet, truthy, hq, dotTwo]
      · simp [pyGet, truthy, hq] at hc
  | some (.vstr s), h => simp [isStrVal] at h

/-- A volume row never raises on a string-free value and is `"N/A"`
exactly when its guard is falsy. -/
theorem commaRow_spec (o : Option Value) (h : isStrVal o = false) :
    ∃ s, commaRow o = Except.ok s ∧ (truthy (pyGet o) = false → s = "N/A") := by
  match o, h with
  | none, _ => exact ⟨"N/A", rfl, fun _ => rfl⟩
  | some .vnull, _ => exact ⟨"N/A", rfl, fun _ => rfl⟩
  | some .vnan, _ => exact ⟨"nan", rfl, fun hc => by simp [pyGet, truthy] at hc⟩
  | some (.vnum q), _ =>
    by_cases hq : q = 0
    · subst hq
      exact ⟨"N/A", rfl, fun _ => rfl⟩
    · refine ⟨commaOfRat q, ?_, fun hc => ?_⟩
      · simp [commaRow, pyGet, truthy, hq, commaFmt]
      · simp [pyGet, truthy, hq] at hc
  | some (.vstr s), h => simp [isStrVal] at h

/-- Formatting a string-free value with `.2f` succeeds whenever the value
is truthy. -/
theorem dotTwo_ok (o : Option Value) (h : isStrVal o = false)
    (ht : truthy (pyGet o) = true) : ∃ s, dotTwo (pyGet o) = Except.ok s := by
  match o, h with
  | none, _ => simp [pyGet, truthy] at ht
  | some .vnull, _ => simp [pyGet, truthy] at ht
  | some .vnan, _ => exact ⟨"nan", rfl⟩
  | some (.vnum q), _ => exact ⟨fmt2 q, rfl⟩
  | some (.vstr s), h => simp [isStrVal] at h

/-- A range row never raises on string-free endpoints and is `"N/A"`
exactly when either endpoint is falsy. -/
theorem rangeRow_spec (lo hi : Option Value) (hlo : isStrVal lo = false)
    (hhi : isStrVal hi = false) :
    ∃ s, rangeRow lo hi = Except.ok s ∧
      ((truthy (pyGet lo) && truthy (pyGet hi)) = false → s = "N/A") := by
  by_cases hg : (truthy (pyGet lo) && truthy (pyGet hi)) = true
  · obtain ⟨a, ha⟩ := dotTwo_ok lo hlo (by simpa using (Bool.and_eq_true _ _ |>.mp hg).1)
    obtain ⟨b, hb⟩ := dotTwo_ok hi hhi (by simpa using (Bool.and_eq_true _ _ |>.mp hg).2)
    refine ⟨"$" ++ a ++ " - $" ++ b, ?_, fun hc => ?_⟩
    · rw [rangeRow, if_pos hg, ha, okBind, hb, okBind, pureOk]
    · rw [hc] at hg
      exact Bool.noConfusion hg
  · refine ⟨"N/A", ?_, fun _ => rfl⟩
    rw [rangeRow, if_neg hg, pureOk]

/-- The dividend-yield row never raises on a string-free value and is
`"N/A"` exactly when its guard is falsy. -/
theorem dividendRow_spec (o : Option Value) (h : isStrVal o = false) :
    ∃ s, dividendRow o = Except.ok s ∧ (truthy (pyGet o) = false → s = "N/A") := by
  match o, h with
  | none, _ => exact ⟨"N/A", rfl, fun _ => rfl⟩
  | some .vnull, _ => exact ⟨"N/A", rfl, fun _ => rfl⟩
  | some .vnan, _ =>
    exact ⟨"nan" ++ "%", rfl, fun hc => by simp [pyGet, truthy] at hc⟩
  | some (.vnum q), _ =>
    by_cases hq : q = 0
    · subst hq
      exact ⟨"N/A", rfl, fun _ => rfl⟩
    · refine ⟨fmt2 (q * 100) ++ "%", ?_, fun hc => ?_⟩
      · simp [dividendRow, pyGet, pyGetD, truthy, hq, pyMul100, dotTwo,
          okBind, pureOk]
      · simp [pyGet, truthy, hq] at hc
  | some (.vstr s), h => simp [isStrVal] at h

/-- The market-cap row never raises on a string-free value and is `"N/A"`
when the value is missing, `None`, or `nan`. -/
theorem marketCapRow_spec (o : Option Value) (h : isStrVal o = false) :
    ∃ s, format_large_number (pyGet o) = Except.ok s ∧
      ((pyGet o = Value.vnull ∨ pyGet o = Value.vnan) → s = "N/A") := by
  match o, h with
  | none, _ => exact ⟨"N/A", rfl, fun _ => rfl⟩
  | some .vnull, _ => exact ⟨"N/A", rfl, fun _ => rfl⟩
  | some .vnan, _ => exact ⟨"N/A", rfl, fun _ => rfl⟩
  | some (.vnum q), _ =>
    refine ⟨_, rfl, fun hc => ?_⟩
    rcases hc with hc | hc <;> simp [pyGet] at hc
  | some (.vstr s), h => simp [isStrVal] at h

/-- On a well-typed record the summary extractor succeeds and satisfies
the full row specification. -/
theorem create_summary_table_ok (info : InfoRecord) (h : WellTyped info) :
    SummarySpec info := by
  obtain ⟨w1, w2, w3, w4, w5, w6, w7, w8, w9, w10, w11, w12, w13⟩ := h
  obtain ⟨s1, e1, n1⟩ := dollar2Row_spec info.currentPrice w1
  obtain ⟨s2, e2, n2⟩ := dollar2Row_spec info.previousClose w2
  obtain ⟨s3, e3, n3⟩ := rangeRow_spec info.dayLow info.dayHigh w3 w4
  obtain ⟨s4, e4, n4⟩ := rangeRow_spec info.fiftyTwoWeekLow info.fiftyTwoWeekHigh w5 w6
  obtain ⟨s5, e5, n5⟩ := commaRow_spec info.volume w7
  obtain ⟨s6, e6, n6⟩ := commaRow_spec info.averageVolume w8
  obtain ⟨s7, e7, n7⟩ := marketCapRow_spec info.marketCap w9
  obtain ⟨s8, e8, n8⟩ := plain2Row_spec info.trailingPE w10
  obtain ⟨s9, e9, n9⟩ := dollar2Row_spec info.trailingEps w11
  obtain ⟨s10, e10, n10⟩ := dividendRow_spec info.dividendYield w12
  obtain ⟨s11, e11, n11⟩ := plain2Row_spec info.beta w13
  refine ⟨[("Current Price", s1), ("Previous Close", s2), ("Day's Range", s3),
    ("52 Week Range", s4), ("Volume", s5), ("Average Volume", s6),
    ("Market Cap", s7), ("P/E Ratio", s8), ("EPS", s9),
    ("Dividend Yield", s10), ("Beta", s11)], ?_, rfl, rfl,
    fun hc => by simp [n1 hc], fun hc => by simp [n2 hc],
    fun hc => by simp [n3 hc], fun hc => by simp [n4 hc],
    fun hc => by simp [n5 hc], fun hc => by simp [n6 hc],
    fun hc => by simp [n7 hc], fun hc => by simp [n8 hc],
    fun hc => by simp [n9 hc], fun hc => by simp [n10 hc],
    fun hc => by simp [n11 hc]⟩
  simp only [create_summary_table, e1, e2, e3, e4, e5, e6, e7, e8, e9, e10,
    e11, okBind, pureOk]

/-- C1: for a numeric input the large-number formatter checks the
magnitude thresholds on the absolute value, largest first, and renders
the sign-preserving quotient by the matching threshold to two decimals
with a `$` prefix and the suffix `K`, `M`, `B`, or `T`; below a thousand
there is no division and no suffix; a null or `nan` input renders as the
literal `"N/A"`. -/
theorem format_large_number_claim (x : ℚ) :
    format_large_number Value.vnull = Except.ok "N/A" ∧
    format_large_number Value.vnan = Except.ok "N/A" ∧
    (|x| < 10 ^ 3 →
      format_large_number (Value.vnum x) = Except.ok ("$" ++ fmt2 x)) ∧
    (10 ^ 3 ≤ |x| → |x| < 10 ^ 6 →
      format_large_number (Value.vnum x) =
        Except.ok ("$" ++ fmt2 (x / 10 ^ 3) ++ "K")) ∧
    (10 ^ 6 ≤ |x| → |x| < 10 ^ 9 →
      format_large_number (Value.vnum x) =
        Except.ok ("$" ++ fmt2 (x / 10 ^ 6) ++ "M")) ∧
    (10 ^ 9 ≤ |x| → |x| < 10 ^ 12 →
      format_large_number (Value.vnum x) =
        Except.ok ("$" ++ fmt2 (x / 10 ^ 9) ++ "B")) ∧
    (10 ^ 12 ≤ |x| →
      format_large_number (Value.vnum x) =
        Except.ok ("$" ++ fmt2 (x / 10 ^ 12) ++ "T")) := by
  have p36 : ((10 : ℚ)) ^ 3 ≤ 10 ^ 6 := by norm_num
  have p69 : ((10 : ℚ)) ^ 6 ≤ 10 ^ 9 := by norm_num
  have p912 : ((10 : ℚ)) ^ 9 ≤ 10 ^ 12 := by norm_num
  refine ⟨rfl, rfl, ?_, ?_, ?_, ?_, ?_⟩
  · intro h
    simp only [format_large_number]
    split_ifs <;> first | rfl | (exfalso; linarith)
  · intro hlo hhi
    simp only [format_large_number]
    split_ifs <;> first | rfl | (exfalso; linarith)
  · intro hlo hhi
    simp only [format_large_number]
    split_ifs <;> first | rfl | (exfalso; linarith)
  · intro hlo hhi
    simp only [format_large_number]
    split_ifs <;> first | rfl | (exfalso; linarith)
  · intro hlo
    simp only [format_large_number]
    rw [if_pos hlo]

/-- C1 witness: the theorem applied on one concrete input in each
magnitude band, including a negative one, plus the null case. -/
theorem format_large_number_claim_w :
    format_large_number (Value.vnum 1500) = Except.ok "$1.50K" ∧
    format_large_number (Value.vnum (-2500000)) = Except.ok "$-2.50M" ∧
    format_large_number (Value.vnum 7000000000) = Except.ok "$7.00B" ∧
    format_large_number (Value.vnum 1200000000000) = Except.ok "$1.20T" ∧
    format_large_number (Value.vnum 999) = Except.ok "$999.00" ∧
    format_large_number Value.vnull = Except.ok "N/A" := by
  refine ⟨?_, ?_, ?_, ?_, ?_, (format_large_number_claim 0).1⟩
  · have h := (format_large_number_claim 1500).2.2.2.1 (by norm_num) (by norm_num)
    rw [h, fmt2_eval (1500 / 10 ^ 3) 150 (by norm_num)]
    rfl
  · have h := (format_large_number_claim (-2500000)).2.2.2.2.1
      (by norm_num) (by norm_num)
    rw [h, fmt2_eval ((-2500000) / 10 ^ 6) (-250) (by norm_num)]
    rfl
  · have h := (format_large_number_claim 7000000000).2.2.2.2.2.1
      (by norm_num) (by norm_num)
    rw [h, fmt2_eval (7000000000 / 10 ^ 9) 700 (by norm_num)]
    rfl
  · have h := (format_large_number_claim 1200000000000).2.2.2.2.2.2 (by norm_num)
    rw [h, fmt2_eval (1200000000000 / 10 ^ 12) 120 (by norm_num)]
    rfl
  · have h := (format_large_number_claim 999).2.2.1 (by norm_num)
    rw [h, fmt2_eval 999 99900 (by norm_num)]
    rfl

/-- C2 (amended): for every info record whose numeric fields hold
numbers, `nan`, `None`, or are absent, the summary extractor returns
exactly 11 (label, value) rows in the fixed label order, and every
guarded metric whose source value is missing, null, or falsy renders
`"N/A"` (ranges render `"N/A"` when either endpoint is falsy); Market Cap
renders `"N/A"` exactly when its value is missing, `None`, or `nan` — a
present zero is formatted as `"$0.00"`, not `"N/A"`. -/
theorem summary_table_claim (info : InfoRecord) (h : WellTyped info) :
    SummarySpec info :=
  create_summary_table_ok info h

/-- C2 witness: the theorem applied to the empty record. -/
theorem summary_table_claim_w :
    WellTyped ({} : InfoRecord) ∧ SummarySpec ({} : InfoRecord) :=
  ⟨⟨rfl, rfl, rfl, rfl, rfl, rfl, rfl, rfl, rfl, rfl, rfl, rfl, rfl⟩,
   summary_table_claim {}
     ⟨rfl, rfl, rfl, rfl, rfl, rfl, rfl, rfl, rfl, rfl, rfl, rfl, rfl⟩⟩

/-- C2 counterexample: with a present zero market cap — a falsy source
value — the Market Cap row renders `"$0.00"`, not the `"N/A"` the claim
requires. -/
theorem summary_table_cex :
    create_summary_table { marketCap := some (Value.vnum 0) } =
      Except.ok [("Current Price", "N/A"), ("Previous Close", "N/A"),
        ("Day's Range", "N/A"), ("52 Week Range", "N/A"), ("Volume", "N/A"),
        ("Average Volume", "N/A"), ("Market Cap", "$0.00"),
        ("P/E Ratio", "N/A"), ("EPS", "N/A"), ("Dividend Yield", "N/A"),
        ("Beta", "N/A")] ∧
    truthy (pyGet ({ marketCap := some (Value.vnum 0) } : InfoRecord).marketCap) =
      false := by
  have hz : fmt2 0 = "0.00" := by
    rw [fmt2_eval 0 0 (by norm_num)]
    rfl
  have hmc : format_large_number (Value.vnum 0) = Except.ok "$0.00" := by
    simp only [format_large_number]
    rw [if_neg (by norm_num), if_neg (by norm_num), if_neg (by norm_num),
      if_neg (by norm_num), hz]
    rfl
  refine ⟨?_, rfl⟩
  simp only [create_summary_table, dollar2Row, rangeRow, commaRow,
    dividendRow, plain2Row, pyGet, truthy, Option.getD, hmc, okBind, pureOk]
  rfl

/-- C3 (amended): on every info record whose numeric fields hold numbers,
`nan`, `None`, or are absent (the name fields may hold anything — the
extractor does not read them), the summary extractor raises no
exception. -/
theorem summary_total_claim (info : InfoRecord) (h : WellTyped info) :
    isOkE (create_summary_table info) = true := by
  obtain ⟨rows, hrows, -⟩ := create_summary_table_ok info h
  rw [hrows]
  rfl

/-- C3 witness: the theorem applied to a record with a numeric price and
a string company name. -/
theorem summary_total_claim_w :
    WellTyped ({ currentPrice := some (Value.vnum 100),
                 shortName := some (Value.vstr "Apple") } : InfoRecord) ∧
    isOkE (create_summary_table
      { currentPrice := some (Value.vnum 100),
        shortName := some (Value.vstr "Apple") }) = true :=
  ⟨⟨rfl, rfl, rfl, rfl, rfl, rfl, rfl, rfl, rfl, rfl, rfl, rfl, rfl⟩,
   summary_total_claim _
     ⟨rfl, rfl, rfl, rfl, rfl, rfl, rfl, rfl, rfl, rfl, rfl, rfl, rfl⟩⟩

/-- C3 counterexample: a string value in a numeric field reaches the
`.2f` format and raises, so the extractor is not total on all records
with numeric-or-string field values. -/
theorem summary_total_cex :
    isOkE (create_summary_table { currentPrice := some (Value.vstr "hello") }) =
      false :=
  rfl

/-- On nonzero first factors, the float ratio steps of `pct_change` are
the finite spec-side returns. -/
theorem zipWith_pyDiv (xs ys : List ℚ) (h : ∀ p ∈ xs, p ≠ 0) :
    List.zipWith (fun prev cur => pyDivQ (cur - prev) prev) xs ys =
      (List.zipWith (fun prev cur => cur / prev - 1) xs ys).map PyFloat.fin := by
  induction xs generalizing ys with
  | nil => simp
  | cons p xs ih =>
    cases ys with
    | nil => simp
    | cons c ys =>
      have hp : p ≠ 0 := h p (List.mem_cons_self _ _)
      have hstep : pyDivQ (c - p) p = PyFloat.fin (c / p - 1) := by
        simp only [pyDivQ, if_neg hp]
        rw [sub_div, div_self hp]
      simp only [List.zipWith_cons_cons, List.map_cons, hstep]
      rw [ih ys (fun a ha => h a (List.mem_cons_of_mem _ ha))]

/-- Finite observations survive the `nan` filter. -/
theorem filter_notNan_map_fin (l : List ℚ) :
    (l.map PyFloat.fin).filter (fun x => !isNan x) = l.map PyFloat.fin := by
  induction l with
  | nil => rfl
  | cons a l ih => simp [isNan, ih]

/-- The leading `nan` is dropped by the filter and the finite tail is
kept. -/
theorem filter_notNan_nan_cons (l : List ℚ) :
    (PyFloat.nan :: l.map PyFloat.fin).filter (fun x => !isNan x) =
      l.map PyFloat.fin := by
  rw [List.filter_cons, if_neg (by decide), filter_notNan_map_fin]

/-- A list of finite observations passes the finiteness test. -/
theorem all_isFin_map_fin (l : List ℚ) :
    (l.map PyFloat.fin).all isFin = true := by
  induction l with
  | nil => rfl
  | cons a l ih => simp [isFin, ih]

/-- Extracting the finite values of finite observations is the identity. -/
theorem filterMap_toQ_map_fin (l : List ℚ) :
    (l.map PyFloat.fin).filterMap toQ = l := by
  induction l with
  | nil => rfl
  | cons a l ih => simp [toQ, ih]

/-- On a series of nonzero closes, `pct_change` is the leading `nan`
followed by the finite spec-side daily returns. -/
theorem pct_change_pos (x : ℚ) (rest : List ℚ) (h : ∀ c ∈ x :: rest, c ≠ 0) :
    pct_change (x :: rest) =
      PyFloat.nan :: (dailyReturns (x :: rest)).map PyFloat.fin := by
  simp only [pct_change, dailyReturns, List.tail_cons]
  rw [zipWith_pyDiv _ _ h]

/-- C4: on the Close series `[100, 110, 121]` the daily returns are
`[0.10, 0.10]` (spec formula and pandas `pct_change` with its leading
`nan` agree), the mean daily return is 10 percent and the total return is
21 percent. -/
theorem basic_stats_claim :
    dailyReturns [100, 110, 121] = [1 / 10, 1 / 10] ∧
    pct_change [100, 110, 121] =
      [PyFloat.nan, PyFloat.fin (1 / 10), PyFloat.fin (1 / 10)] ∧
    avg_daily_return [100, 110, 121] = PyFloat.fin 10 ∧
    total_return [100, 110, 121] = some (PyFloat.fin 21) := by
  have h2 : pct_change [100, 110, 121] =
      [PyFloat.nan, PyFloat.fin (1 / 10), PyFloat.fin (1 / 10)] := by
    norm_num [pct_change, pyDivQ]
  refine ⟨by norm_num [dailyReturns], h2, ?_, ?_⟩
  · rw [avg_daily_return, h2]
    norm_num [mean_skipna, isNan, isPinf, isNinf, toQ, pyMulC,
      List.filter, List.filterMap]
  · norm_num [total_return, List.getLast?, pyDivQ, pySubC, pyMulC]

/-- C5 (amended): the annualized volatility is the sample (n−1 denominator)
standard deviation of the daily-returns sequence × √252 × 100, verified
on squares: on positive closes with at least two returns the squared
volatility is the sample variance of the spec-side daily returns times
252 × 100²; with fewer than two returns the value is the float `nan` and
the rendered metric text is `"nan%"` — the code never emits the literal
`"not available"`. -/
theorem volatility_claim (close : List ℚ) :
    ((∀ c ∈ close, 0 < c) → 3 ≤ close.length →
      volatility_sq close =
        PyFloat.fin (sampleVar (dailyReturns close) * (252 * 100 ^ 2))) ∧
    (close.length ≤ 2 → volatility_sq close = PyFloat.nan) ∧
    (∀ s, close.length ≤ 2 → IsSqrtOf s (volatility_sq close) →
      pyFmt2 s ++ "%" = "nan%") := by
  have key : close.length ≤ 2 → volatility_sq close = PyFloat.nan := by
    intro hlen
    rcases close with _ | ⟨a, _ | ⟨b, _ | ⟨c, rest⟩⟩⟩
    · rfl
    · rfl
    · have hle : ((pct_change [a, b]).filter (fun x => !isNan x)).length < 2 := by
        have heq : (pct_change [a, b]).filter (fun x => !isNan x) =
            [pyDivQ (b - a) a].filter (fun x => !isNan x) := by
          simp [pct_change, isNan]
        rw [heq]
        exact Nat.lt_of_le_of_lt (List.length_filter_le _ _) (by norm_num)
      simp only [volatility_sq, stdSq_skipna, if_pos hle]
      rfl
    · simp only [List.length_cons] at hlen
      omega
  refine ⟨?_, key, ?_⟩
  · intro hpos hlen
    rcases close with _ | ⟨x, rest⟩
    · simp at hlen
    · have hne : ∀ c ∈ x :: rest, c ≠ 0 := fun c hc => ne_of_gt (hpos c hc)
      have hlenL : (dailyReturns (x :: rest)).length = rest.length := by
        simp [dailyReturns, List.length_zipWith]
      have h2 : ¬ ((dailyReturns (x :: rest)).map PyFloat.fin).length < 2 := by
        simp only [List.length_map, hlenL]
        simp only [List.length_cons] at hlen
        omega
      simp only [volatility_sq, pct_change_pos x rest hne, stdSq_skipna,
        filter_notNan_nan_cons, filterMap_toQ_map_fin]
      rw [if_neg h2, if_pos (all_isFin_map_fin _)]
      rfl
  · intro s hl hs
    rw [key hl] at hs
    cases s with
    | nan => rfl
    | fin q => simp [IsSqrtOf] at hs
    | pinf => simp [IsSqrtOf] at hs
    | ninf => simp [IsSqrtOf] at hs

/-- C5 witness: the theorem applied to the three-row series of the spec
example and to a two-row series. -/
theorem volatility_claim_w :
    volatility_sq [100, 110, 121] =
      PyFloat.fin (sampleVar (dailyReturns [100, 110, 121]) * (252 * 100 ^ 2)) ∧
    volatility_sq [10, 20] = PyFloat.nan ∧
    pyFmt2 PyFloat.nan ++ "%" = "nan%" := by
  refine ⟨(volatility_claim [100, 110, 121]).1 (by decide) (by decide),
    (volatility_claim [10, 20]).2.1 (by decide), ?_⟩
  refine (volatility_claim [10, 20]).2.2 PyFloat.nan (by decide) ?_
  rw [(volatility_claim [10, 20]).2.1 (by decide)]
  simp [IsSqrtOf]

/-- C5 counterexample: on a two-row series (one return) the volatility is
the float `nan`, rendered `"nan%"` — not the sentinel `"not available"`
the claim requires. -/
theorem volatility_cex :
    volatility_sq [100, 110] = PyFloat.nan ∧
    pyFmt2 PyFloat.nan ++ "%" = "nan%" := by
  constructor
  · have hle : ((pct_change [100, 110]).filter (fun x => !isNan x)).length < 2 := by
      have : (pct_change [100, 110]).filter (fun x => !isNan x) =
          [pyDivQ (110 - 100) 100].filter (fun x => !isNan x) := by
        simp [pct_change, isNan]
      rw [this]
      exact Nat.lt_of_le_of_lt (List.length_filter_le _ _) (by norm_num)
    simp only [volatility_sq, stdSq_skipna, if_pos hle]
    rfl
  · rfl

/-- C6 (amended): the total return is `(close[last]/close[first] − 1) × 100`
whenever the first close is nonzero; when the first close is zero the
division is not guarded — the float quotient is infinite (positive
infinity for a positive last close) and the metric renders `"+inf%"`, not
the sentinel `"not available"` (and no crash occurs). -/
theorem total_return_claim (close : List ℚ) (f l : ℚ) :
    (close.head? = some f → close.getLast? = some l → f ≠ 0 →
      total_return close = some (PyFloat.fin ((l / f - 1) * 100))) ∧
    (close.head? = some f → close.getLast? = some l → f = 0 → 0 < l →
      total_return close = some PyFloat.pinf) := by
  constructor
  · intro hh hl hf
    simp only [total_return, hh, hl]
    simp only [pyDivQ, if_neg hf, pySubC, pyMulC]
  · intro hh hl hf hpos
    subst hf
    have h1 : pyDivQ l 0 = PyFloat.pinf := by
      simp [pyDivQ, hpos]
    simp only [total_return, hh, hl, h1, pySubC, pyMulC,
      if_pos (show (0 : ℚ) < 100 by norm_num)]

/-- C6 witness: the theorem applied to the spec example series and to a
series with a zero first close. -/
theorem total_return_claim_w :
    total_return [100, 110, 121] = some (PyFloat.fin ((121 / 100 - 1) * 100)) ∧
    total_return [(0 : ℚ), 5] = some PyFloat.pinf :=
  ⟨(total_return_claim [100, 110, 121] 100 121).1 rfl rfl (by norm_num),
   (total_return_claim [(0 : ℚ), 5] 0 5).2 rfl rfl rfl (by norm_num)⟩

/-- C6 counterexample: with a zero first close the total return is
positive infinity, rendered `"+inf%"` — not the sentinel
`"not available"` the claim requires, and not a guard. -/
theorem total_return_cex :
    total_return [(0 : ℚ), 110] = some PyFloat.pinf ∧
    pyFmt2Signed PyFloat.pinf ++ "%" = "+inf%" := by
  constructor
  · have hlast : [(0 : ℚ), 110].getLast? = some 110 := rfl
    have hhead : [(0 : ℚ), 110].head? = some 0 := rfl
    have h1 : pyDivQ 110 0 = PyFloat.pinf := by
      norm_num [pyDivQ]
    simp only [total_return, hlast, hhead, h1, pySubC, pyMulC,
      if_pos (show (0 : ℚ) < 100 by norm_num)]
  · rfl

/-- C8 (amended): the company display name is decided by key presence,
not by non-emptiness: it is shortName's value whenever that key is
present (even when the value is null or empty), else longName's value
whenever that key is present, else the raw ticker symbol. -/
theorem company_name_claim (info : InfoRecord) (sym : String) :
    (∀ v, info.shortName = some v → company_name info sym = v) ∧
    (info.shortName = none → ∀ w, info.longName = some w →
      company_name info sym = w) ∧
    (info.shortName = none → info.longName = none →
      company_name info sym = Value.vstr sym) := by
  refine ⟨fun v hv => ?_, fun h1 w hw => ?_, fun h1 h2 => ?_⟩
  · simp [company_name, pyGetD, hv]
  · simp [company_name, pyGetD, h1, hw]
  · simp [company_name, pyGetD, h1, h2]

/-- C8 witness: the theorem applied with a present short name, a present
long name only, and an empty record. -/
theorem company_name_claim_w :
    company_name { shortName := some (Value.vstr "Shorty") } "T" =
      Value.vstr "Shorty" ∧
    company_name { longName := some (Value.vstr "Longy") } "T" =
      Value.vstr "Longy" ∧
    company_name ({} : InfoRecord) "T" = Value.vstr "T" :=
  ⟨(company_name_claim _ "T").1 _ rfl,
   (company_name_claim _ "T").2.1 rfl _ rfl,
   (company_name_claim _ "T").2.2 rfl rfl⟩

/-- C8 counterexample: with a present-but-null short name and a present
long name, the display name is the null value — it does not fall through
to the long name as the claim requires. -/
theorem company_name_cex :
    company_name { shortName := some Value.vnull,
                   longName := some (Value.vstr "Apple Inc.") } "AAPL" =
      Value.vnull :=
  rfl

/-- C7: for every historical series the export document's historical
section is the full input series — one row per input trading date, in the
original order, with no filtering and no truncation to 10 rows — with
every numeric column rounded to two decimals; dates are preserved
exactly, the row count equals the input row count, and the date index is
named `Date`. -/
theorem csv_export_claim (info : InfoRecord) (hist : DataFrame)
    (sym per : String) (h : WellTyped info) :
    ∃ doc, (prepare_csv_data info hist sym per).1 = Except.ok doc ∧
      doc.hist = hist.rows.map roundRow ∧
      doc.hist.length = hist.rows.length ∧
      doc.hist.map TradingRow.date = hist.rows.map TradingRow.date ∧
      doc.histIndexName = some "Date" := by
  obtain ⟨rows, hrows, -⟩ := create_summary_table_ok info h
  have hp : (prepare_csv_data info hist sym per).1 =
      Except.ok
        { symbol := sym
          period := per
          summary := rows
          histIndexName := some "Date"
          hist := hist.rows.map roundRow } := by
    simp only [prepare_csv_data, hrows]
  refine ⟨_, hp, rfl, List.length_map _ _, ?_, rfl⟩
  rw [List.map_map]
  rfl

/-- C7 witness: the theorem applied to an 11-row series — the exported
section has all 11 rows, not a 10-row window. -/
theorem csv_export_claim_w :
    WellTyped ({} : InfoRecord) ∧
    ∃ doc, (prepare_csv_data {}
        ⟨(List.range 11).map (fun i => mkRow (toString i) (i : ℚ)), none⟩
        "AAPL" "1 Month").1 = Except.ok doc ∧ doc.hist.length = 11 := by
  refine ⟨⟨rfl, rfl, rfl, rfl, rfl, rfl, rfl, rfl, rfl, rfl, rfl, rfl, rfl⟩, ?_⟩
  obtain ⟨doc, h1, h2, h3, h4, h5⟩ := csv_export_claim {}
    ⟨(List.range 11).map (fun i => mkRow (toString i) (i : ℚ)), none⟩
    "AAPL" "1 Month"
    ⟨rfl, rfl, rfl, rfl, rfl, rfl, rfl, rfl, rfl, rfl, rfl, rfl, rfl⟩
  refine ⟨doc, h1, ?_⟩
  rw [h3]
  rfl

/-- C9: in this source copy, whenever the selected chart type is
`"Line Chart"` nothing in the chart section renders: the volume chart,
the historical-data table and the CSV-export preparation and download are
nested inside the candlestick `else` branch, so on the line-chart path
they never execute (the line-chart figure itself is also created but
never shown); on the candlestick branch all four steps run. -/
theorem line_chart_claim (info : InfoRecord) (hist : DataFrame)
    (sym per : String) :
    chart_section "Line Chart" info hist sym per = [] ∧
    chart_section "Candlestick Chart" info hist sym per =
      [RenderStep.pricePlot, RenderStep.volumePlot,
       RenderStep.histTable
         ((hist.rows.drop (hist.rows.length - 10)).map roundRow),
       RenderStep.download (prepare_csv_data info hist sym per).1] := by
  constructor
  · rw [chart_section, if_pos rfl]
  · rw [chart_section, if_neg (by decide)]

/-- C10: `prepare_csv_data` never mutates its historical-data argument:
the index rename and the rounding run on the `.copy()`, so the caller's
frame after the call is the frame passed in, values, rows and index name
alike, even though the returned document holds renamed rounded data. -/
theorem csv_no_mutation_claim (info : InfoRecord) (hist : DataFrame)
    (sym per : String) :
    (prepare_csv_data info hist sym per).2 = hist := by
  cases h : create_summary_table info <;> simp [prepare_csv_data, h]

end StockApp
